import Mathlib

/-!
Shallow embedding of `src/ompl/objectives/TravGridObjective.hpp` from the
`motion_planning_libraries` repository: the traversability-grid cost model
used inside an OMPL sampling-based planner.  Doubles are modelled as exact
real numbers extended with the IEEE non-finite values (+inf, -inf, NaN),
which the code can produce through division by zero, through the explicit
`std::numeric_limits<double>::infinity()` sentinel, and through overflow of
finite additions and of the base-cost scaling (notably `DBL_MAX + DBL_MAX`).
-/

namespace MotionPlanningLibraries

/-- Model of an IEEE-754 double value as used by the cost code: an exact
finite real, positive infinity, negative infinity, or NaN.  Finite results
below the overflow threshold are exact (sub-threshold rounding is not
modelled); results whose exact value reaches the round-to-nearest overflow
threshold are modelled as `±inf` in addition and in the base-cost
multiplication — the overflow the code actually reaches through its
`DBL_MAX` sentinels. -/
inductive DD where
  | fin (x : ℝ)
  | inf
  | ninf
  | nan

/-- The IEEE-754 round-to-nearest-even overflow threshold for doubles: an
exact result with magnitude at least `2^1024 - 2^970` (the midpoint between
the largest finite double and `2^1024`) rounds to infinity. -/
noncomputable def DBL_OVF : ℝ := 2 ^ 1024 - 2 ^ 970

namespace DD

/-- IEEE addition on the extended values: a finite sum whose exact value
reaches the overflow threshold yields `±inf` (as `DBL_MAX + DBL_MAX` does);
finite sums below it are exact. -/
noncomputable def add : DD → DD → DD
  | nan, _ => nan
  | _, nan => nan
  | inf, ninf => nan
  | ninf, inf => nan
  | inf, _ => inf
  | _, inf => inf
  | ninf, _ => ninf
  | _, ninf => ninf
  | fin a, fin b =>
      if a + b ≥ DBL_OVF then inf
      else if a + b ≤ -DBL_OVF then ninf
      else fin (a + b)

/-- IEEE multiplication of an extended value by a finite double, with finite
products kept exact: `±inf * 0 = NaN`, signs propagate.  This exact variant
models the source's own multiplication in `fp_time_sec`, where overflow is
unreachable for configurations within the double range. -/
noncomputable def mulFin : DD → ℝ → DD
  | nan, _ => nan
  | inf, r => if 0 < r then inf else if r < 0 then ninf else nan
  | ninf, r => if 0 < r then ninf else if r < 0 then inf else nan
  | fin a, r => fin (a * r)

/-- IEEE multiplication of an extended value by a finite double including
finite overflow to `±inf` at the threshold; used for the spec-modelled base
segment cost, whose operands can be as large as the `DBL_MAX` sentinels. -/
noncomputable def mulIEEE : DD → ℝ → DD
  | nan, _ => nan
  | inf, r => if 0 < r then inf else if r < 0 then ninf else nan
  | ninf, r => if 0 < r then ninf else if r < 0 then inf else nan
  | fin a, r =>
      if a * r ≥ DBL_OVF then inf
      else if a * r ≤ -DBL_OVF then ninf
      else fin (a * r)

/-- IEEE division of two finite doubles, including the divide-by-zero
results: `x / 0 = +inf` for `x > 0`, `-inf` for `x < 0`, and `0 / 0 = NaN`. -/
noncomputable def ieeeDiv (x y : ℝ) : DD :=
  if y = 0 then (if 0 < x then inf else if x < 0 then ninf else nan)
  else fin (x / y)

/-- The IEEE `>` comparison: any comparison involving NaN is false, `+inf` is
greater than everything else, `-inf` greater than nothing. -/
def gt : DD → DD → Prop
  | nan, _ => False
  | _, nan => False
  | inf, inf => False
  | inf, _ => True
  | ninf, _ => False
  | fin _, inf => False
  | fin _, ninf => True
  | fin a, fin b => b < a

noncomputable instance : ∀ a b : DD, Decidable (gt a b) := fun a b => by
  cases a <;> cases b <;> simp only [gt] <;> infer_instance

end DD

/-- The exact value of `std::numeric_limits<double>::max()`, the largest
finite IEEE-754 double: `(2 - 2^-52) * 2^1023 = (2^53 - 1) * 2^971`. -/
noncomputable def DBL_MAX : ℝ := (2 ^ 53 - 1) * 2 ^ 971

/-- The grid interface consumed from the grid provider (`envire`):
cell dimensions, the raw cell data `(*mpTravData)[y][x]` (a class value per
cell), the class-to-drivability lookup
`getTraversabilityClass(c).getDrivability()`, and the metric scale
`getScaleX()`. -/
structure TraversabilityGrid where
  cellSizeX : ℕ
  cellSizeY : ℕ
  scaleX : ℝ
  travData : ℕ → ℕ → ℕ
  drivability : ℕ → ℝ

/-- The environment variants of `Config::mEnvType` dispatched on by the cost
model; `ENV_OTHER` stands for any further enumerator, which the code rejects
in its `default` branch. -/
inductive EnvType where
  | ENV_XY
  | ENV_XYTHETA
  | ENV_SHERPA
  | ENV_OTHER
deriving DecidableEq

/-- The mobility parameters used by the cost model (`mConfig.mMobility`). -/
structure Mobility where
  mSpeed : ℝ

/-- The configuration fields of `Config` read by `TravGridObjective`. -/
structure Config where
  mEnvType : EnvType
  mMobility : Mobility
  mNumFootprintClasses : ℕ
  mTimeToAdaptFootprint : ℝ
  mAdaptFootprintPenalty : ℝ

/-- State of `ompl::base::RealVectorStateSpace`: `values[0]`, `values[1]`. -/
structure RealVectorState where
  x : ℝ
  y : ℝ

/-- State of `ompl::base::SE2StateSpace`: `getX()`, `getY()`, `getYaw()`. -/
structure SE2State where
  x : ℝ
  y : ℝ
  yaw : ℝ

/-- State of `SherpaStateSpace`: `getX()`, `getY()`, `getYaw()`,
`getFootprintClass()`. -/
structure SherpaState where
  x : ℝ
  y : ℝ
  yaw : ℝ
  footprintClass : ℤ

/-- An `ompl::base::State*` together with its dynamic type: one of the three
state variants the objective can be used with. -/
inductive PlanState where
  | rv (s : RealVectorState)
  | se2 (s : SE2State)
  | sherpa (s : SherpaState)

/-- The error conditions the code signals by `throw std::runtime_error`, plus
`BadStateCast` modelling the undefined behaviour of an `as<...>` cast applied
to a state of the wrong variant (never reached when the configured variant
matches the states handed in). -/
inductive CostErr where
  | NoGridBound
  | OutOfBoundsState
  | UnsupportedVariant
  | BadStateCast
deriving DecidableEq

/-- The `TravGridObjective` object state: the (possibly unbound) grid
reference and the immutable configuration. -/
structure TravGridObjective where
  mpTravGrid : Option TraversabilityGrid
  mConfig : Config

/-- Constructor without a grid: `mpTravGrid(NULL)`. -/
def mkTravGridObjective (config : Config) : TravGridObjective :=
  { mpTravGrid := none, mConfig := config }

/-- Constructor with a grid. -/
def mkTravGridObjectiveWithGrid (trav_grid : TraversabilityGrid)
    (config : Config) : TravGridObjective :=
  { mpTravGrid := some trav_grid, mConfig := config }

/-- Method `setTravGrid`: hot-swaps the grid binding. -/
def setTravGrid (o : TravGridObjective) (trav_grid : TraversabilityGrid) :
    TravGridObjective :=
  { o with mpTravGrid := some trav_grid }

/-- The `switch(mConfig.mEnvType)` state extraction in `stateCost`: returns
`(x, y, footprint_class)`; `footprint_class` keeps its initialiser `0` for
the non-Sherpa variants.  The `default` branch throws (unknown environment);
a variant/state mismatch is undefined behaviour in C++, modelled as
`BadStateCast`. -/
def extractState : EnvType → PlanState → Except CostErr (ℝ × ℝ × ℤ)
  | .ENV_XY, .rv s => .ok (s.x, s.y, 0)
  | .ENV_XYTHETA, .se2 s => .ok (s.x, s.y, 0)
  | .ENV_SHERPA, .sherpa s => .ok (s.x, s.y, s.footprintClass)
  | .ENV_OTHER, _ => .error .UnsupportedVariant
  | _, _ => .error .BadStateCast

/-- Whether the extracted position passes the bounds check of `stateCost`
(the negation of `x < 0 || x >= getCellSizeX() || y < 0 || y >= getCellSizeY()`). -/
def InBounds (g : TraversabilityGrid) (x y : ℝ) : Prop :=
  0 ≤ x ∧ x < (g.cellSizeX : ℝ) ∧ 0 ≤ y ∧ y < (g.cellSizeY : ℝ)

/-- The in-bounds part of `stateCost`, after the bounds check: look up the
cell class at the truncated indices `[y][x]`, map it to a drivability, and
compute the cost.  Zero drivability or zero speed yield
`std::numeric_limits<double>::max()`; otherwise the cost is
`(getScaleX() / mSpeed) / driveability`, and for `ENV_SHERPA` it is further
divided (IEEE division) by `(footprint_class + 1) / (mNumFootprintClasses + 1)`. -/
noncomputable def cellCostValue (g : TraversabilityGrid) (cfg : Config)
    (x y : ℝ) (footprint_class : ℤ) : DD :=
  let class_value := g.travData ⌊y⌋.toNat ⌊x⌋.toNat
  let driveability := g.drivability class_value
  if driveability = 0 ∨ cfg.mMobility.mSpeed = 0 then
    .fin DBL_MAX
  else
    let cost := g.scaleX / cfg.mMobility.mSpeed / driveability
    if cfg.mEnvType = .ENV_SHERPA then
      DD.ieeeDiv cost (((footprint_class : ℝ) + 1) / ((cfg.mNumFootprintClasses : ℝ) + 1))
    else
      .fin cost

/-- Method `TravGridObjective::stateCost`, together with the number of `LOG_WARN`
diagnostics it emits: no grid bound and unknown-environment throw first; an
out-of-bounds position logs one warning and then throws; otherwise the cell
cost is returned. -/
noncomputable def stateCostRun (o : TravGridObjective) (s : PlanState) :
    Except CostErr DD × ℕ :=
  match o.mpTravGrid with
  | none => (.error .NoGridBound, 0)
  | some grid =>
    match extractState o.mConfig.mEnvType s with
    | .error e => (.error e, 0)
    | .ok (x, y, footprint_class) =>
      if x < 0 ∨ x ≥ (grid.cellSizeX : ℝ) ∨ y < 0 ∨ y ≥ (grid.cellSizeY : ℝ) then
        (.error .OutOfBoundsState, 1)
      else
        (.ok (cellCostValue grid o.mConfig x y footprint_class), 0)

/-- The result of `TravGridObjective::stateCost` (`evaluateStateCost`). -/
noncomputable def stateCost (o : TravGridObjective) (s : PlanState) :
    Except CostErr DD :=
  (stateCostRun o s).1

/-- The number of `LOG_WARN` diagnostics emitted by one `stateCost` call. -/
noncomputable def stateCostWarnings (o : TravGridObjective) (s : PlanState) : ℕ :=
  (stateCostRun o s).2

/-- The planar Euclidean distance
`(base::Vector2d(x1, y1) - base::Vector2d(x2, y2)).norm()`. -/
noncomputable def planarDist (x1 y1 x2 y2 : ℝ) : ℝ :=
  Real.sqrt ((x1 - x2) ^ 2 + (y1 - y2) ^ 2)

/-- Modelled from the spec: the state space's native metric used by the base
motion-cost primitive — position distance, with the orientation component,
when present, weighted by one half ("the distance (x,y,theta/2.0) between
the states").  The state-space classes themselves are not part of the
reviewed source. -/
noncomputable def nativeDistance : PlanState → PlanState → ℝ
  | .rv a, .rv b => planarDist a.x a.y b.x b.y
  | .se2 a, .se2 b => planarDist a.x a.y b.x b.y + |a.yaw - b.yaw| / 2
  | .sherpa a, .sherpa b => planarDist a.x a.y b.x b.y + |a.yaw - b.yaw| / 2
  | _, _ => 0

/-- Term `fp_time_sec` in `motionCost`:
`(abs(int(fc1 - fc2)) / (double)mNumFootprintClasses) * mTimeToAdaptFootprint`,
with the IEEE divide-by-zero behaviour when `mNumFootprintClasses = 0`. -/
noncomputable def fpTimeSec (cfg : Config) (st1 st2 : SherpaState) : DD :=
  DD.mulFin
    (DD.ieeeDiv ((|st1.footprintClass - st2.footprintClass| : ℤ) : ℝ)
      (cfg.mNumFootprintClasses : ℝ))
    cfg.mTimeToAdaptFootprint

/-- Term `mov_time_sec` in `motionCost`: the planar distance between the states
times `getScaleX()`, divided (IEEE) by the configured speed — no guard for
speed zero. -/
noncomputable def movTimeSec (g : TraversabilityGrid) (cfg : Config)
    (st1 st2 : SherpaState) : DD :=
  DD.ieeeDiv (planarDist st1.x st1.y st2.x st2.y * g.scaleX)
    cfg.mMobility.mSpeed

/-- Modelled from the spec: the base segment cost delegated to OMPL's
`StateCostIntegralObjective::motionCost` (interpolation disabled, the
default) — "mean of the two states' Cell Cost Evaluator results, scaled by
the geometric distance between the states in the state space's native
metric"; it evaluates `stateCost` at both endpoints and so propagates their
errors.  The endpoint sum and the scaling by the distance follow IEEE
overflow: two `DBL_MAX` endpoint sentinels overflow to `+inf` here. -/
noncomputable def baseSegmentCost (o : TravGridObjective) (s1 s2 : PlanState) :
    Except CostErr DD :=
  match stateCost o s1, stateCost o s2 with
  | .ok c1, .ok c2 => .ok (DD.mulIEEE (DD.add c1 c2) (nativeDistance s1 s2 / 2))
  | .error e, _ => .error e
  | _, .error e => .error e

/-- Method `TravGridObjective::motionCost` (`evaluateMotionCost`): the base segment
cost, and for `ENV_SHERPA` additionally the footprint-adaptation time, a
fixed penalty when the footprint changed, and the override to
`std::numeric_limits<double>::infinity()` when `fp_time_sec > mov_time_sec`. -/
noncomputable def motionCost (o : TravGridObjective) (s1 s2 : PlanState) :
    Except CostErr DD :=
  match baseSegmentCost o s1 s2 with
  | .error e => .error e
  | .ok base =>
    match o.mConfig.mEnvType, s1, s2, o.mpTravGrid with
    | .ENV_SHERPA, .sherpa st1, .sherpa st2, some grid =>
      let fp_time_sec := fpTimeSec o.mConfig st1 st2
      let cost1 := DD.add base fp_time_sec
      let cost2 :=
        if DD.gt fp_time_sec (.fin 0) then
          DD.add cost1 (.fin o.mConfig.mAdaptFootprintPenalty)
        else cost1
      if DD.gt fp_time_sec (movTimeSec grid o.mConfig st1 st2) then
        .ok .inf
      else
        .ok cost2
    | _, _, _, _ => .ok base

/-- Test fixture: a `w × h` grid with a single cell class `0` everywhere,
drivability `d` for every class and metric scale `scale`. -/
noncomputable def flatGrid (w h : ℕ) (scale d : ℝ) : TraversabilityGrid :=
  { cellSizeX := w, cellSizeY := h, scaleX := scale,
    travData := fun _ _ => 0, drivability := fun _ => d }

/-- Test fixture: a configuration with the given environment variant, speed,
footprint-class count, adaptation time and adaptation penalty. -/
def mkConfig (env : EnvType) (v : ℝ) (n : ℕ) (t p : ℝ) : Config :=
  { mEnvType := env, mMobility := ⟨v⟩, mNumFootprintClasses := n,
    mTimeToAdaptFootprint := t, mAdaptFootprintPenalty := p }

/- ------------------------------------------------------------------ -/
/- Helper lemmas                                                       -/
/- ------------------------------------------------------------------ -/

/-- Adding the finite double `0` to a base-cost value is the identity: the
non-finite values absorb it, and the finite outputs of `mulIEEE` lie
strictly inside the overflow threshold, so the sum cannot overflow. -/
theorem DD.add_mulIEEE_fin_zero (x : DD) (r : ℝ) :
    DD.add (DD.mulIEEE x r) (.fin 0) = DD.mulIEEE x r := by
  cases x with
  | nan => simp [DD.mulIEEE, DD.add]
  | inf =>
    simp only [DD.mulIEEE]
    split_ifs <;> simp [DD.add]
  | ninf =>
    simp only [DD.mulIEEE]
    split_ifs <;> simp [DD.add]
  | fin a =>
    simp only [DD.mulIEEE]
    split_ifs with h1 h2
    · simp [DD.add]
    · simp [DD.add]
    · simp only [DD.add, add_zero]
      rw [if_neg h1, if_neg h2]

/-- A planar distance along the x-axis is the absolute coordinate difference. -/
theorem planarDist_same_y (x1 x2 y : ℝ) : planarDist x1 y x2 y = |x1 - x2| := by
  simp [planarDist, Real.sqrt_sq_eq_abs]

/-- Planar distances are nonnegative. -/
theorem planarDist_nonneg (x1 y1 x2 y2 : ℝ) : 0 ≤ planarDist x1 y1 x2 y2 :=
  Real.sqrt_nonneg _

/-- Distinct planar positions have strictly positive distance. -/
theorem planarDist_pos (x1 y1 x2 y2 : ℝ) (h : (x1, y1) ≠ (x2, y2)) :
    0 < planarDist x1 y1 x2 y2 := by
  apply Real.sqrt_pos.mpr
  rcases lt_or_eq_of_le (add_nonneg (sq_nonneg (x1 - x2)) (sq_nonneg (y1 - y2))) with hlt | heq
  · exact hlt
  · exfalso
    have h1 : (x1 - x2) ^ 2 = 0 ∧ (y1 - y2) ^ 2 = 0 := by
      constructor <;> nlinarith [sq_nonneg (x1 - x2), sq_nonneg (y1 - y2)]
    apply h
    have hx := sub_eq_zero.mp (pow_eq_zero_iff (n := 2) (by norm_num) |>.mp h1.1)
    have hy := sub_eq_zero.mp (pow_eq_zero_iff (n := 2) (by norm_num) |>.mp h1.2)
    rw [hx, hy]

/-- Evaluation of `stateCostRun` on a bound grid once extraction succeeded
and the position is in bounds. -/
theorem stateCostRun_inbounds (g : TraversabilityGrid) (cfg : Config)
    (s : PlanState) (x y : ℝ) (fc : ℤ)
    (hx : extractState cfg.mEnvType s = .ok (x, y, fc))
    (hb : InBounds g x y) :
    stateCostRun ⟨some g, cfg⟩ s = (.ok (cellCostValue g cfg x y fc), 0) := by
  obtain ⟨h1, h2, h3, h4⟩ := hb
  simp only [stateCostRun, hx]
  rw [if_neg]
  push_neg
  exact ⟨h1, h2, h3, h4⟩

/-- IEEE division by a nonzero double is exact division. -/
theorem DD.ieeeDiv_of_ne (x y : ℝ) (h : y ≠ 0) : DD.ieeeDiv x y = .fin (x / y) := by
  simp [DD.ieeeDiv, h]

/-- The IEEE `>` on finite doubles is the real order. -/
theorem DD.gt_fin_iff (a b : ℝ) : DD.gt (.fin a) (.fin b) ↔ b < a := Iff.rfl

/-- Shared evaluation: an in-bounds cell with zero drivability or zero speed
costs `DBL_MAX`. -/
theorem stateCost_sentinel_aux (g : TraversabilityGrid) (cfg : Config)
    (s : PlanState) (x y : ℝ) (fc : ℤ)
    (hx : extractState cfg.mEnvType s = .ok (x, y, fc))
    (hb : InBounds g x y)
    (hzero : g.drivability (g.travData ⌊y⌋.toNat ⌊x⌋.toNat) = 0 ∨
             cfg.mMobility.mSpeed = 0) :
    stateCost ⟨some g, cfg⟩ s = .ok (.fin DBL_MAX) := by
  have hcell : cellCostValue g cfg x y fc = .fin DBL_MAX := by
    simp only [cellCostValue]
    rw [if_pos hzero]
  simp [stateCost, stateCostRun_inbounds g cfg s x y fc hx hb, hcell]

/-- Shared evaluation: the nominal in-bounds cost for a non-Sherpa variant. -/
theorem stateCost_formula_aux (g : TraversabilityGrid) (cfg : Config)
    (s : PlanState) (x y d : ℝ) (fc : ℤ)
    (henv : cfg.mEnvType ≠ .ENV_SHERPA)
    (hx : extractState cfg.mEnvType s = .ok (x, y, fc))
    (hb : InBounds g x y)
    (hd : g.drivability (g.travData ⌊y⌋.toNat ⌊x⌋.toNat) = d)
    (hd0 : d ≠ 0) (hv : cfg.mMobility.mSpeed ≠ 0) :
    stateCost ⟨some g, cfg⟩ s =
      .ok (.fin (g.scaleX / cfg.mMobility.mSpeed / d)) := by
  have hcell : cellCostValue g cfg x y fc =
      .fin (g.scaleX / cfg.mMobility.mSpeed / d) := by
    simp only [cellCostValue]
    rw [hd, if_neg, if_neg henv]
    push_neg
    exact ⟨hd0, hv⟩
  simp [stateCost, stateCostRun_inbounds g cfg s x y fc hx hb, hcell]

/-- Shared evaluation: the in-bounds cost for the Sherpa variant, with the
footprint-class ratio division applied. -/
theorem stateCost_sherpa_aux (g : TraversabilityGrid) (cfg : Config)
    (st : SherpaState) (d : ℝ)
    (henv : cfg.mEnvType = .ENV_SHERPA)
    (hb : InBounds g st.x st.y)
    (hd : g.drivability (g.travData ⌊st.y⌋.toNat ⌊st.x⌋.toNat) = d)
    (hd0 : d ≠ 0) (hv : cfg.mMobility.mSpeed ≠ 0)
    (hr : ((st.footprintClass : ℝ) + 1) / ((cfg.mNumFootprintClasses : ℝ) + 1) ≠ 0) :
    stateCost ⟨some g, cfg⟩ (.sherpa st) =
      .ok (.fin ((g.scaleX / cfg.mMobility.mSpeed / d) /
        (((st.footprintClass : ℝ) + 1) / ((cfg.mNumFootprintClasses : ℝ) + 1)))) := by
  have hx : extractState cfg.mEnvType (.sherpa st) =
      .ok (st.x, st.y, st.footprintClass) := by
    rw [henv]
    rfl
  have hcell : cellCostValue g cfg st.x st.y st.footprintClass =
      .fin ((g.scaleX / cfg.mMobility.mSpeed / d) /
        (((st.footprintClass : ℝ) + 1) / ((cfg.mNumFootprintClasses : ℝ) + 1))) := by
    simp only [cellCostValue]
    rw [hd, if_neg, if_pos henv, DD.ieeeDiv_of_ne _ _ hr]
    push_neg
    exact ⟨hd0, hv⟩
  simp [stateCost, stateCostRun_inbounds g cfg _ st.x st.y st.footprintClass hx hb,
    hcell]

/-- With a nonzero footprint-class count, `fp_time_sec` is the finite value
`(|fc1 - fc2| / numFootprintClasses) * timeToAdaptFootprint`. -/
theorem fpTimeSec_fin (cfg : Config) (st1 st2 : SherpaState)
    (hn : (cfg.mNumFootprintClasses : ℝ) ≠ 0) :
    fpTimeSec cfg st1 st2 =
      .fin (((|st1.footprintClass - st2.footprintClass| : ℤ) : ℝ) /
        (cfg.mNumFootprintClasses : ℝ) * cfg.mTimeToAdaptFootprint) := by
  unfold fpTimeSec
  rw [DD.ieeeDiv_of_ne _ _ hn]
  rfl

/-- With a nonzero speed, `mov_time_sec` is the finite value
`distance * scale / speed`. -/
theorem movTimeSec_fin (g : TraversabilityGrid) (cfg : Config)
    (st1 st2 : SherpaState) (hv : cfg.mMobility.mSpeed ≠ 0) :
    movTimeSec g cfg st1 st2 =
      .fin (planarDist st1.x st1.y st2.x st2.y * g.scaleX /
        cfg.mMobility.mSpeed) := by
  unfold movTimeSec
  exact DD.ieeeDiv_of_ne _ _ hv

/-- Evaluation of the base segment cost when both endpoint states extract and
are in bounds. -/
theorem baseSegmentCost_inbounds (g : TraversabilityGrid) (cfg : Config)
    (s1 s2 : PlanState) (x1 y1 : ℝ) (fc1 : ℤ) (x2 y2 : ℝ) (fc2 : ℤ)
    (hx1 : extractState cfg.mEnvType s1 = .ok (x1, y1, fc1))
    (hx2 : extractState cfg.mEnvType s2 = .ok (x2, y2, fc2))
    (hb1 : InBounds g x1 y1) (hb2 : InBounds g x2 y2) :
    baseSegmentCost ⟨some g, cfg⟩ s1 s2 =
      .ok (DD.mulIEEE (DD.add (cellCostValue g cfg x1 y1 fc1)
        (cellCostValue g cfg x2 y2 fc2)) (nativeDistance s1 s2 / 2)) := by
  have h1 := stateCostRun_inbounds g cfg s1 x1 y1 fc1 hx1 hb1
  have h2 := stateCostRun_inbounds g cfg s2 x2 y2 fc2 hx2 hb2
  simp [baseSegmentCost, stateCost, h1, h2]

/-- Evaluation of `motionCost` in the Sherpa case, given a successful base
segment cost: the footprint time is added, then the penalty if the footprint
changed, and the result is overridden to `+inf` when
`fp_time_sec > mov_time_sec`. -/
theorem motionCost_sherpa_cases (g : TraversabilityGrid) (cfg : Config)
    (st1 st2 : SherpaState) (B : DD)
    (henv : cfg.mEnvType = .ENV_SHERPA)
    (hbase : baseSegmentCost ⟨some g, cfg⟩ (.sherpa st1) (.sherpa st2) = .ok B) :
    motionCost ⟨some g, cfg⟩ (.sherpa st1) (.sherpa st2) =
      if DD.gt (fpTimeSec cfg st1 st2) (movTimeSec g cfg st1 st2) then
        .ok .inf
      else
        .ok (if DD.gt (fpTimeSec cfg st1 st2) (.fin 0) then
          DD.add (DD.add B (fpTimeSec cfg st1 st2))
            (.fin cfg.mAdaptFootprintPenalty)
        else DD.add B (fpTimeSec cfg st1 st2)) := by
  simp only [motionCost, hbase, henv]

/- ------------------------------------------------------------------ -/
/- Claim theorems                                                      -/
/- ------------------------------------------------------------------ -/

/-- C6: if no grid reference has been bound (construction without a grid and
no `setTravGrid` call), every `stateCost` evaluation fails with the
no-grid-bound error — for every configuration and every state, including
states that would otherwise be out of bounds or of an unsupported variant,
so the check precedes any state extraction or cost computation — and no
diagnostic is emitted. -/
theorem c6_no_grid_bound (cfg : Config) (s : PlanState) :
    stateCost (mkTravGridObjective cfg) s = .error .NoGridBound ∧
    stateCostWarnings (mkTravGridObjective cfg) s = 0 :=
  ⟨rfl, rfl⟩

/-- C5: a state whose extracted position lies outside
`[0, width) × [0, height)` makes `stateCost` fail with the out-of-bounds
error — never a numeric cost — and exactly one `LOG_WARN` diagnostic is
emitted in addition to the error. -/
theorem c5_out_of_bounds_error (g : TraversabilityGrid) (cfg : Config)
    (s : PlanState) (x y : ℝ) (fc : ℤ)
    (hx : extractState cfg.mEnvType s = .ok (x, y, fc))
    (hoob : ¬ InBounds g x y) :
    stateCost ⟨some g, cfg⟩ s = .error .OutOfBoundsState ∧
    stateCostWarnings ⟨some g, cfg⟩ s = 1 := by
  have hcond : x < 0 ∨ x ≥ (g.cellSizeX : ℝ) ∨ y < 0 ∨ y ≥ (g.cellSizeY : ℝ) := by
    by_contra hc
    push_neg at hc
    exact hoob ⟨hc.1, hc.2.1, hc.2.2.1, hc.2.2.2⟩
  have h : stateCostRun ⟨some g, cfg⟩ s = (.error .OutOfBoundsState, 1) := by
    simp only [stateCostRun, hx]
    rw [if_pos hcond]
  exact ⟨by simp [stateCost, h], by simp [stateCostWarnings, h]⟩

/-- Witness for C5 at `x = -1` on a bound 10×10 grid. -/
theorem c5_out_of_bounds_error_witness :
    ¬ InBounds (flatGrid 10 10 1 1) (-1) 2 ∧
    stateCost ⟨some (flatGrid 10 10 1 1), mkConfig .ENV_XY 1 0 0 0⟩
        (.rv ⟨-1, 2⟩) = .error .OutOfBoundsState ∧
    stateCostWarnings ⟨some (flatGrid 10 10 1 1), mkConfig .ENV_XY 1 0 0 0⟩
        (.rv ⟨-1, 2⟩) = 1 := by
  have hoob : ¬ InBounds (flatGrid 10 10 1 1) (-1) 2 := by
    intro h
    exact absurd h.1 (by norm_num)
  have h := c5_out_of_bounds_error (flatGrid 10 10 1 1)
    (mkConfig .ENV_XY 1 0 0 0) (.rv ⟨-1, 2⟩) (-1) 2 0 rfl hoob
  exact ⟨hoob, h.1, h.2⟩

/-- C4: for every in-bounds position, zero drivability of the cell or zero
configured speed makes `stateCost` return the infeasible sentinel
`std::numeric_limits<double>::max()` — a successful (maximal) value, not an
error. -/
theorem c4_zero_driv_or_speed_sentinel (g : TraversabilityGrid) (cfg : Config)
    (s : PlanState) (x y : ℝ) (fc : ℤ)
    (hx : extractState cfg.mEnvType s = .ok (x, y, fc))
    (hb : InBounds g x y)
    (hzero : g.drivability (g.travData ⌊y⌋.toNat ⌊x⌋.toNat) = 0 ∨
             cfg.mMobility.mSpeed = 0) :
    stateCost ⟨some g, cfg⟩ s = .ok (.fin DBL_MAX) :=
  stateCost_sentinel_aux g cfg s x y fc hx hb hzero

/-- Witness for C4: zero drivability at an in-bounds cell. -/
theorem c4_zero_driv_or_speed_sentinel_witness :
    InBounds (flatGrid 10 10 1 0) 2 3 ∧
    stateCost ⟨some (flatGrid 10 10 1 0), mkConfig .ENV_XY 1 0 0 0⟩
        (.rv ⟨2, 3⟩) = .ok (.fin DBL_MAX) := by
  have hb : InBounds (flatGrid 10 10 1 0) 2 3 := by
    refine ⟨by norm_num, ?_, by norm_num, ?_⟩ <;> norm_num [flatGrid]
  exact ⟨hb, c4_zero_driv_or_speed_sentinel (flatGrid 10 10 1 0)
    (mkConfig .ENV_XY 1 0 0 0) (.rv ⟨2, 3⟩) 2 3 0 rfl hb (Or.inl rfl)⟩

/-- C2: for an in-bounds state of a non-footprint variant whose cell has
drivability `d > 0` (with `d ≤ 1`) and configured speed `v > 0`, `stateCost`
returns exactly `(scaleX / v) / d`. -/
theorem c2_nominal_cost_formula (g : TraversabilityGrid) (cfg : Config)
    (s : PlanState) (x y d : ℝ) (fc : ℤ)
    (henv : cfg.mEnvType ≠ .ENV_SHERPA)
    (hx : extractState cfg.mEnvType s = .ok (x, y, fc))
    (hb : InBounds g x y)
    (hd : g.drivability (g.travData ⌊y⌋.toNat ⌊x⌋.toNat) = d)
    (hd0 : 0 < d) (hd1 : d ≤ 1)
    (hv : 0 < cfg.mMobility.mSpeed) :
    stateCost ⟨some g, cfg⟩ s =
      .ok (.fin (g.scaleX / cfg.mMobility.mSpeed / d)) :=
  stateCost_formula_aux g cfg s x y d fc henv hx hb hd (ne_of_gt hd0)
    (ne_of_gt hv)

/-- Witness for C2, the spec's example: 10×10 grid, scale 1, drivability 1/2
everywhere, speed 2 — an in-bounds cell has state cost exactly 1. -/
theorem c2_nominal_cost_formula_witness :
    InBounds (flatGrid 10 10 1 (1 / 2)) 3.5 7.25 ∧
    stateCost ⟨some (flatGrid 10 10 1 (1 / 2)), mkConfig .ENV_XY 2 0 0 0⟩
        (.rv ⟨3.5, 7.25⟩) = .ok (.fin 1) := by
  have hb : InBounds (flatGrid 10 10 1 (1 / 2)) 3.5 7.25 := by
    refine ⟨by norm_num, ?_, by norm_num, ?_⟩ <;> norm_num [flatGrid]
  refine ⟨hb, ?_⟩
  have h := c2_nominal_cost_formula (flatGrid 10 10 1 (1 / 2))
    (mkConfig .ENV_XY 2 0 0 0) (.rv ⟨3.5, 7.25⟩) 3.5 7.25 (1 / 2) 0
    (by simp [mkConfig]) rfl hb rfl (by norm_num) (by norm_num)
    (by norm_num [mkConfig])
  rw [h]
  norm_num [flatGrid, mkConfig]

/-- C8: for an in-bounds cell, drivability in `(0,1]` and speed `> 0`
(positive cell scale, and — per the spec's invariant — a footprint class
within `[0, numFootprintClasses]`), the state cost is finite and strictly
positive, and it never increases when drivability or speed increases; this
covers every environment variant, the footprint-aware one included (its
ratio divisor appears in the stated cost, and is `1` otherwise).  Stated for
two grids `g₁`, `g₂` identical except for their drivability table. -/
theorem c8_cost_positive_antitone (g₁ g₂ : TraversabilityGrid) (cfg : Config)
    (s : PlanState) (x y d₁ d₂ v₁ v₂ : ℝ) (fc : ℤ)
    (hx : extractState cfg.mEnvType s = .ok (x, y, fc))
    (hgg : g₂ = { g₁ with drivability := g₂.drivability })
    (hb : InBounds g₁ x y)
    (hd₁ : g₁.drivability (g₁.travData ⌊y⌋.toNat ⌊x⌋.toNat) = d₁)
    (hd₂ : g₂.drivability (g₂.travData ⌊y⌋.toNat ⌊x⌋.toNat) = d₂)
    (hscale : 0 < g₁.scaleX)
    (hd0 : 0 < d₁) (hdd : d₁ ≤ d₂) (hd1 : d₂ ≤ 1)
    (hv0 : 0 < v₁) (hvv : v₁ ≤ v₂)
    (hfc0 : 0 ≤ fc) (hfcn : fc ≤ (cfg.mNumFootprintClasses : ℤ)) :
    stateCost ⟨some g₁, { cfg with mMobility := ⟨v₁⟩ }⟩ s =
      .ok (.fin ((g₁.scaleX / v₁ / d₁) /
        (if cfg.mEnvType = .ENV_SHERPA then
          ((fc : ℝ) + 1) / ((cfg.mNumFootprintClasses : ℝ) + 1) else 1))) ∧
    0 < (g₁.scaleX / v₁ / d₁) /
        (if cfg.mEnvType = .ENV_SHERPA then
          ((fc : ℝ) + 1) / ((cfg.mNumFootprintClasses : ℝ) + 1) else 1) ∧
    stateCost ⟨some g₂, { cfg with mMobility := ⟨v₂⟩ }⟩ s =
      .ok (.fin ((g₁.scaleX / v₂ / d₂) /
        (if cfg.mEnvType = .ENV_SHERPA then
          ((fc : ℝ) + 1) / ((cfg.mNumFootprintClasses : ℝ) + 1) else 1))) ∧
    (g₁.scaleX / v₂ / d₂) /
        (if cfg.mEnvType = .ENV_SHERPA then
          ((fc : ℝ) + 1) / ((cfg.mNumFootprintClasses : ℝ) + 1) else 1) ≤
      (g₁.scaleX / v₁ / d₁) /
        (if cfg.mEnvType = .ENV_SHERPA then
          ((fc : ℝ) + 1) / ((cfg.mNumFootprintClasses : ℝ) + 1) else 1) := by
  have hv2 : 0 < v₂ := lt_of_lt_of_le hv0 hvv
  have hd2 : 0 < d₂ := lt_of_lt_of_le hd0 hdd
  have hb₂ : InBounds g₂ x y := by
    rw [hgg]
    exact hb
  have hscaleeq : g₂.scaleX = g₁.scaleX := by rw [hgg]
  have hbase_mono : g₁.scaleX / v₂ / d₂ ≤ g₁.scaleX / v₁ / d₁ := by
    rw [div_div, div_div]
    exact div_le_div_of_nonneg_left (le_of_lt hscale) (mul_pos hv0 hd0)
      (mul_le_mul hvv hdd (le_of_lt hd0) (le_of_lt hv2))
  have hbase_pos : 0 < g₁.scaleX / v₁ / d₁ :=
    div_pos (div_pos hscale hv0) hd0
  by_cases henv : cfg.mEnvType = .ENV_SHERPA
  · cases s with
    | rv s0 =>
      exfalso
      rw [henv] at hx
      simp [extractState] at hx
    | se2 s0 =>
      exfalso
      rw [henv] at hx
      simp [extractState] at hx
    | sherpa st =>
      rw [henv] at hx
      have hx' : st.x = x ∧ st.y = y ∧ st.footprintClass = fc := by
        simpa [extractState] using hx
      obtain ⟨hxx, hyy, hfceq⟩ := hx'
      subst hxx
      subst hyy
      subst hfceq
      rw [if_pos henv]
      have hn1 : (0 : ℝ) < (cfg.mNumFootprintClasses : ℝ) + 1 := by positivity
      have hfr : (0 : ℝ) ≤ (st.footprintClass : ℝ) := by exact_mod_cast hfc0
      have hR : 0 < ((st.footprintClass : ℝ) + 1) /
          ((cfg.mNumFootprintClasses : ℝ) + 1) := div_pos (by linarith) hn1
      have h₁ := stateCost_sherpa_aux g₁ { cfg with mMobility := ⟨v₁⟩ } st d₁
        henv hb hd₁ (ne_of_gt hd0) (ne_of_gt hv0) (ne_of_gt hR)
      have h₂ := stateCost_sherpa_aux g₂ { cfg with mMobility := ⟨v₂⟩ } st d₂
        henv hb₂ hd₂ (ne_of_gt hd2) (ne_of_gt hv2) (ne_of_gt hR)
      rw [hscaleeq] at h₂
      exact ⟨h₁, div_pos hbase_pos hR, h₂,
        (div_le_div_iff_of_pos_right hR).mpr hbase_mono⟩
  · rw [if_neg henv]
    simp only [div_one]
    have h₁ := stateCost_formula_aux g₁ { cfg with mMobility := ⟨v₁⟩ } s x y
      d₁ fc henv hx hb hd₁ (ne_of_gt hd0) (ne_of_gt hv0)
    have h₂ := stateCost_formula_aux g₂ { cfg with mMobility := ⟨v₂⟩ } s x y
      d₂ fc henv hx hb₂ hd₂ (ne_of_gt hd2) (ne_of_gt hv2)
    rw [hscaleeq] at h₂
    exact ⟨h₁, hbase_pos, h₂, hbase_mono⟩

/-- Witness for C8 in the footprint-aware variant: on a 10×10 unit-scale
grid with two footprint classes, class 1 (ratio 2/3): drivability 1/4 at
speed 1 costs 6, drivability 1/2 at speed 2 costs 3/2, and 3/2 ≤ 6. -/
theorem c8_cost_positive_antitone_witness :
    stateCost ⟨some (flatGrid 10 10 1 (1 / 4)),
        { mkConfig .ENV_SHERPA 1 2 0 0 with mMobility := ⟨1⟩ }⟩
      (.sherpa ⟨2, 3, 0, 1⟩) = .ok (.fin 6) ∧
    stateCost ⟨some (flatGrid 10 10 1 (1 / 2)),
        { mkConfig .ENV_SHERPA 1 2 0 0 with mMobility := ⟨2⟩ }⟩
      (.sherpa ⟨2, 3, 0, 1⟩) = .ok (.fin (3 / 2)) ∧
    (3 / 2 : ℝ) ≤ 6 := by
  have hb : InBounds (flatGrid 10 10 1 (1 / 4)) 2 3 := by
    refine ⟨by norm_num, ?_, by norm_num, ?_⟩ <;> norm_num [flatGrid]
  have h := c8_cost_positive_antitone (flatGrid 10 10 1 (1 / 4))
    (flatGrid 10 10 1 (1 / 2)) (mkConfig .ENV_SHERPA 1 2 0 0)
    (.sherpa ⟨2, 3, 0, 1⟩) 2 3 (1 / 4) (1 / 2) 1 2 1
    rfl rfl hb rfl rfl (by norm_num [flatGrid])
    (by norm_num) (by norm_num) (by norm_num) (by norm_num) (by norm_num)
    (by norm_num) (by norm_num [mkConfig])
  obtain ⟨e1, _, e2, _⟩ := h
  refine ⟨?_, ?_, by norm_num⟩
  · rw [e1]
    norm_num [flatGrid, mkConfig]
  · rw [e2]
    norm_num [flatGrid, mkConfig]

/-- C3: for the footprint-aware variant, the finite state cost is the nominal
cost divided by `(footprintClass + 1) / (numFootprintClasses + 1)`; for a
class in `[0, numFootprintClasses]` this ratio lies in `(0, 1]`, so the
division never decreases the cost, and at the same cell the class-0 cost is
`numFootprintClasses + 1` times the maximum-class cost. -/
theorem c3_footprint_class_division (g : TraversabilityGrid) (cfg : Config)
    (x y yaw d : ℝ) (fc : ℤ)
    (henv : cfg.mEnvType = .ENV_SHERPA)
    (hb : InBounds g x y)
    (hd : g.drivability (g.travData ⌊y⌋.toNat ⌊x⌋.toNat) = d)
    (hd0 : 0 < d) (hv : 0 < cfg.mMobility.mSpeed) (hscale : 0 < g.scaleX)
    (hfc0 : 0 ≤ fc) (hfcn : fc ≤ (cfg.mNumFootprintClasses : ℤ)) :
    stateCost ⟨some g, cfg⟩ (.sherpa ⟨x, y, yaw, fc⟩) =
      .ok (.fin ((g.scaleX / cfg.mMobility.mSpeed / d) /
        (((fc : ℝ) + 1) / ((cfg.mNumFootprintClasses : ℝ) + 1)))) ∧
    0 < ((fc : ℝ) + 1) / ((cfg.mNumFootprintClasses : ℝ) + 1) ∧
    ((fc : ℝ) + 1) / ((cfg.mNumFootprintClasses : ℝ) + 1) ≤ 1 ∧
    g.scaleX / cfg.mMobility.mSpeed / d ≤
      (g.scaleX / cfg.mMobility.mSpeed / d) /
        (((fc : ℝ) + 1) / ((cfg.mNumFootprintClasses : ℝ) + 1)) ∧
    stateCost ⟨some g, cfg⟩ (.sherpa ⟨x, y, yaw, 0⟩) =
      .ok (.fin (((cfg.mNumFootprintClasses : ℝ) + 1) *
        (g.scaleX / cfg.mMobility.mSpeed / d))) ∧
    stateCost ⟨some g, cfg⟩
        (.sherpa ⟨x, y, yaw, (cfg.mNumFootprintClasses : ℤ)⟩) =
      .ok (.fin (g.scaleX / cfg.mMobility.mSpeed / d)) := by
  have hn1 : (0 : ℝ) < (cfg.mNumFootprintClasses : ℝ) + 1 := by positivity
  have hfcr : (0 : ℝ) ≤ (fc : ℝ) := by exact_mod_cast hfc0
  have hr : 0 < ((fc : ℝ) + 1) / ((cfg.mNumFootprintClasses : ℝ) + 1) :=
    div_pos (by linarith) hn1
  have hbase : 0 < g.scaleX / cfg.mMobility.mSpeed / d :=
    div_pos (div_pos hscale hv) hd0
  have h := stateCost_sherpa_aux g cfg ⟨x, y, yaw, fc⟩ d henv hb hd
    (ne_of_gt hd0) (ne_of_gt hv) (ne_of_gt hr)
  have hr0 : (((0 : ℤ) : ℝ) + 1) / ((cfg.mNumFootprintClasses : ℝ) + 1) ≠ 0 := by
    rw [Int.cast_zero, zero_add]
    exact ne_of_gt (div_pos one_pos hn1)
  have h0 := stateCost_sherpa_aux g cfg ⟨x, y, yaw, 0⟩ d henv hb hd
    (ne_of_gt hd0) (ne_of_gt hv) hr0
  have hrn : ((((cfg.mNumFootprintClasses : ℤ)) : ℝ) + 1) /
      ((cfg.mNumFootprintClasses : ℝ) + 1) ≠ 0 := by
    push_cast
    exact ne_of_gt (div_pos hn1 hn1)
  have hn := stateCost_sherpa_aux g cfg
    ⟨x, y, yaw, (cfg.mNumFootprintClasses : ℤ)⟩ d henv hb hd
    (ne_of_gt hd0) (ne_of_gt hv) hrn
  have e0 : (g.scaleX / cfg.mMobility.mSpeed / d) /
      ((((0 : ℤ) : ℝ) + 1) / ((cfg.mNumFootprintClasses : ℝ) + 1)) =
      ((cfg.mNumFootprintClasses : ℝ) + 1) *
        (g.scaleX / cfg.mMobility.mSpeed / d) := by
    rw [Int.cast_zero, zero_add, one_div, div_inv_eq_mul, mul_comm]
  have en : (g.scaleX / cfg.mMobility.mSpeed / d) /
      (((((cfg.mNumFootprintClasses : ℤ)) : ℝ) + 1) /
        ((cfg.mNumFootprintClasses : ℝ) + 1)) =
      g.scaleX / cfg.mMobility.mSpeed / d := by
    push_cast
    rw [div_self (ne_of_gt hn1), div_one]
  rw [e0] at h0
  rw [en] at hn
  refine ⟨h, hr, ?_, ?_, h0, hn⟩
  · rw [div_le_one hn1]
    have : (fc : ℝ) ≤ (cfg.mNumFootprintClasses : ℝ) := by exact_mod_cast hfcn
    linarith
  · exact le_div_self (le_of_lt hbase) hr (by
      rw [div_le_one hn1]
      have : (fc : ℝ) ≤ (cfg.mNumFootprintClasses : ℝ) := by exact_mod_cast hfcn
      linarith)

/-- Witness for C3, the spec's example: footprint-aware, 3 footprint classes,
same cell — class 0 costs 4, class 3 costs 1 (a 4× ratio). -/
theorem c3_footprint_class_division_witness :
    stateCost ⟨some (flatGrid 10 10 1 1), mkConfig .ENV_SHERPA 1 3 0 0⟩
        (.sherpa ⟨2, 2, 0, 0⟩) = .ok (.fin 4) ∧
    stateCost ⟨some (flatGrid 10 10 1 1), mkConfig .ENV_SHERPA 1 3 0 0⟩
        (.sherpa ⟨2, 2, 0, 3⟩) = .ok (.fin 1) := by
  have hb : InBounds (flatGrid 10 10 1 1) 2 2 := by
    refine ⟨by norm_num, ?_, by norm_num, ?_⟩ <;> norm_num [flatGrid]
  have h := c3_footprint_class_division (flatGrid 10 10 1 1)
    (mkConfig .ENV_SHERPA 1 3 0 0) 2 2 0 1 1 rfl hb rfl (by norm_num)
    (by norm_num [mkConfig]) (by norm_num [flatGrid]) (by norm_num)
    (by norm_num [mkConfig])
  obtain ⟨-, -, -, -, h0, hn⟩ := h
  constructor
  · rw [h0]
    norm_num [flatGrid, mkConfig]
  · rw [show ((mkConfig .ENV_SHERPA 1 3 0 0).mNumFootprintClasses : ℤ) = 3
        from rfl] at hn
    rw [hn]
    norm_num [flatGrid, mkConfig]

/-- C1: in the footprint-aware variant, whenever the footprint-adaptation
time `(|fc1 - fc2| / numFootprintClasses) * timeToAdaptFootprint` strictly
exceeds the movement time `(planar distance * scale) / speed`, `motionCost`
returns the infeasible `+inf` sentinel, for every pair of in-bounds states. -/
theorem c1_footprint_time_forces_infeasible (g : TraversabilityGrid)
    (cfg : Config) (st1 st2 : SherpaState)
    (henv : cfg.mEnvType = .ENV_SHERPA)
    (hb1 : InBounds g st1.x st1.y) (hb2 : InBounds g st2.x st2.y)
    (hn : 0 < cfg.mNumFootprintClasses)
    (hv : cfg.mMobility.mSpeed ≠ 0)
    (hgt : planarDist st1.x st1.y st2.x st2.y * g.scaleX /
        cfg.mMobility.mSpeed <
      ((|st1.footprintClass - st2.footprintClass| : ℤ) : ℝ) /
        (cfg.mNumFootprintClasses : ℝ) * cfg.mTimeToAdaptFootprint) :
    motionCost ⟨some g, cfg⟩ (.sherpa st1) (.sherpa st2) = .ok .inf := by
  have hx1 : extractState cfg.mEnvType (.sherpa st1) =
      .ok (st1.x, st1.y, st1.footprintClass) := by
    rw [henv]
    rfl
  have hx2 : extractState cfg.mEnvType (.sherpa st2) =
      .ok (st2.x, st2.y, st2.footprintClass) := by
    rw [henv]
    rfl
  have hbase := baseSegmentCost_inbounds g cfg (.sherpa st1) (.sherpa st2)
    st1.x st1.y st1.footprintClass st2.x st2.y st2.footprintClass
    hx1 hx2 hb1 hb2
  have hncast : (cfg.mNumFootprintClasses : ℝ) ≠ 0 := by
    exact_mod_cast Nat.pos_iff_ne_zero.mp hn
  rw [motionCost_sherpa_cases g cfg st1 st2 _ henv hbase,
    fpTimeSec_fin cfg st1 st2 hncast, movTimeSec_fin g cfg st1 st2 hv,
    if_pos ((DD.gt_fin_iff _ _).mpr hgt)]

/-- Witness for C1, the spec's example: two states five cells apart, speed 1,
scale 1, one footprint class, full class change, adaptation time 10 —
`fp_time_sec = 10 > 5 = mov_time_sec`, so the transition cost is `+inf`. -/
theorem c1_footprint_time_forces_infeasible_witness :
    planarDist 0 0 5 0 * (flatGrid 10 10 1 1).scaleX /
        (mkConfig .ENV_SHERPA 1 1 10 0).mMobility.mSpeed <
      ((|(0 : ℤ) - 1| : ℤ) : ℝ) /
        ((mkConfig .ENV_SHERPA 1 1 10 0).mNumFootprintClasses : ℝ) *
        (mkConfig .ENV_SHERPA 1 1 10 0).mTimeToAdaptFootprint ∧
    motionCost ⟨some (flatGrid 10 10 1 1), mkConfig .ENV_SHERPA 1 1 10 0⟩
      (.sherpa ⟨0, 0, 0, 0⟩) (.sherpa ⟨5, 0, 0, 1⟩) = .ok .inf := by
  have hb1 : InBounds (flatGrid 10 10 1 1) 0 0 := by
    refine ⟨le_refl _, ?_, le_refl _, ?_⟩ <;> norm_num [flatGrid]
  have hb2 : InBounds (flatGrid 10 10 1 1) 5 0 := by
    refine ⟨by norm_num, ?_, le_refl _, ?_⟩ <;> norm_num [flatGrid]
  have hgt : planarDist 0 0 5 0 * (flatGrid 10 10 1 1).scaleX /
      (mkConfig .ENV_SHERPA 1 1 10 0).mMobility.mSpeed <
      ((|(0 : ℤ) - 1| : ℤ) : ℝ) /
        ((mkConfig .ENV_SHERPA 1 1 10 0).mNumFootprintClasses : ℝ) *
        (mkConfig .ENV_SHERPA 1 1 10 0).mTimeToAdaptFootprint := by
    rw [planarDist_same_y]
    norm_num [flatGrid, mkConfig]
  exact ⟨hgt, c1_footprint_time_forces_infeasible (flatGrid 10 10 1 1)
    (mkConfig .ENV_SHERPA 1 1 10 0) ⟨0, 0, 0, 0⟩ ⟨5, 0, 0, 1⟩ rfl hb1 hb2
    (by norm_num [mkConfig]) (by norm_num [mkConfig]) hgt⟩

/-- C7: in the footprint-aware variant, identical footprint classes on both
endpoints give a zero footprint-adaptation term: no adaptation time, no
penalty, no infeasibility override — `motionCost` equals the base segment
cost (under a sane configuration: positive class count, nonnegative scale
and speed). -/
theorem c7_same_footprint_class_base_cost (g : TraversabilityGrid)
    (cfg : Config) (st1 st2 : SherpaState)
    (henv : cfg.mEnvType = .ENV_SHERPA)
    (hb1 : InBounds g st1.x st1.y) (hb2 : InBounds g st2.x st2.y)
    (hn : 0 < cfg.mNumFootprintClasses)
    (hfc : st1.footprintClass = st2.footprintClass)
    (hscale : 0 ≤ g.scaleX) (hv : 0 ≤ cfg.mMobility.mSpeed) :
    fpTimeSec cfg st1 st2 = .fin 0 ∧
    motionCost ⟨some g, cfg⟩ (.sherpa st1) (.sherpa st2) =
      baseSegmentCost ⟨some g, cfg⟩ (.sherpa st1) (.sherpa st2) := by
  have hncast : (cfg.mNumFootprintClasses : ℝ) ≠ 0 := by
    exact_mod_cast Nat.pos_iff_ne_zero.mp hn
  have hfp : fpTimeSec cfg st1 st2 = .fin 0 := by
    rw [fpTimeSec_fin cfg st1 st2 hncast, hfc]
    simp
  refine ⟨hfp, ?_⟩
  have hx1 : extractState cfg.mEnvType (.sherpa st1) =
      .ok (st1.x, st1.y, st1.footprintClass) := by
    rw [henv]
    rfl
  have hx2 : extractState cfg.mEnvType (.sherpa st2) =
      .ok (st2.x, st2.y, st2.footprintClass) := by
    rw [henv]
    rfl
  have hbase := baseSegmentCost_inbounds g cfg (.sherpa st1) (.sherpa st2)
    st1.x st1.y st1.footprintClass st2.x st2.y st2.footprintClass
    hx1 hx2 hb1 hb2
  have hdm : 0 ≤ planarDist st1.x st1.y st2.x st2.y * g.scaleX :=
    mul_nonneg (planarDist_nonneg _ _ _ _) hscale
  have hpen : ¬ DD.gt (DD.fin 0) (DD.fin 0) := by simp [DD.gt]
  have hmov : ¬ DD.gt (DD.fin 0) (movTimeSec g cfg st1 st2) := by
    rcases eq_or_ne cfg.mMobility.mSpeed 0 with h0 | h0
    · unfold movTimeSec DD.ieeeDiv
      rw [h0, if_pos rfl]
      split_ifs with h1 h2
      · simp [DD.gt]
      · linarith
      · simp [DD.gt]
    · rw [movTimeSec_fin g cfg st1 st2 h0, DD.gt_fin_iff]
      push_neg
      exact div_nonneg hdm hv
  rw [motionCost_sherpa_cases g cfg st1 st2 _ henv hbase, hfp,
    if_neg hmov, if_neg hpen, DD.add_mulIEEE_fin_zero, hbase]

/-- Witness for C7: identical footprint classes, a concrete in-bounds pair —
the footprint time is zero and the transition cost equals the base cost. -/
theorem c7_same_footprint_class_base_cost_witness :
    fpTimeSec (mkConfig .ENV_SHERPA 1 2 10 5) ⟨1, 1, 0, 1⟩ ⟨2, 1, 0, 1⟩ =
      .fin 0 ∧
    motionCost ⟨some (flatGrid 10 10 1 1), mkConfig .ENV_SHERPA 1 2 10 5⟩
        (.sherpa ⟨1, 1, 0, 1⟩) (.sherpa ⟨2, 1, 0, 1⟩) =
      baseSegmentCost ⟨some (flatGrid 10 10 1 1), mkConfig .ENV_SHERPA 1 2 10 5⟩
        (.sherpa ⟨1, 1, 0, 1⟩) (.sherpa ⟨2, 1, 0, 1⟩) := by
  have hb1 : InBounds (flatGrid 10 10 1 1) 1 1 := by
    refine ⟨by norm_num, ?_, by norm_num, ?_⟩ <;> norm_num [flatGrid]
  have hb2 : InBounds (flatGrid 10 10 1 1) 2 1 := by
    refine ⟨by norm_num, ?_, by norm_num, ?_⟩ <;> norm_num [flatGrid]
  exact c7_same_footprint_class_base_cost (flatGrid 10 10 1 1)
    (mkConfig .ENV_SHERPA 1 2 10 5) ⟨1, 1, 0, 1⟩ ⟨2, 1, 0, 1⟩ rfl hb1 hb2
    (by norm_num [mkConfig]) rfl (by norm_num [flatGrid])
    (by norm_num [mkConfig])

/-- Shared evaluation for the speed-zero Sherpa transition: the movement
time is the IEEE `+inf` from the unguarded division by zero, the (finite)
`fp_time_sec` is never greater than it, so the override never applies — and
the returned cost is nevertheless `+inf`, because both endpoint costs are
the `DBL_MAX` sentinel and their sum overflows in the base segment cost. -/
theorem motionCost_speed_zero_overflow_aux (g : TraversabilityGrid)
    (cfg : Config) (st1 st2 : SherpaState)
    (henv : cfg.mEnvType = .ENV_SHERPA)
    (hb1 : InBounds g st1.x st1.y) (hb2 : InBounds g st2.x st2.y)
    (hn : 0 < cfg.mNumFootprintClasses)
    (hv : cfg.mMobility.mSpeed = 0)
    (hpos : (st1.x, st1.y) ≠ (st2.x, st2.y))
    (hscale : 0 < g.scaleX) :
    movTimeSec g cfg st1 st2 = .inf ∧
    ¬ DD.gt (fpTimeSec cfg st1 st2) (movTimeSec g cfg st1 st2) ∧
    motionCost ⟨some g, cfg⟩ (.sherpa st1) (.sherpa st2) = .ok .inf := by
  have hdm : 0 < planarDist st1.x st1.y st2.x st2.y * g.scaleX :=
    mul_pos (planarDist_pos _ _ _ _ hpos) hscale
  have hmov : movTimeSec g cfg st1 st2 = .inf := by
    unfold movTimeSec DD.ieeeDiv
    rw [hv, if_pos rfl, if_pos hdm]
  have hncast : (cfg.mNumFootprintClasses : ℝ) ≠ 0 := by
    exact_mod_cast Nat.pos_iff_ne_zero.mp hn
  have hfp := fpTimeSec_fin cfg st1 st2 hncast
  have hnot : ¬ DD.gt (fpTimeSec cfg st1 st2) (movTimeSec g cfg st1 st2) := by
    rw [hfp, hmov]
    simp [DD.gt]
  refine ⟨hmov, hnot, ?_⟩
  have hx1 : extractState cfg.mEnvType (.sherpa st1) =
      .ok (st1.x, st1.y, st1.footprintClass) := by
    rw [henv]
    rfl
  have hx2 : extractState cfg.mEnvType (.sherpa st2) =
      .ok (st2.x, st2.y, st2.footprintClass) := by
    rw [henv]
    rfl
  have hbase := baseSegmentCost_inbounds g cfg (.sherpa st1) (.sherpa st2)
    st1.x st1.y st1.footprintClass st2.x st2.y st2.footprintClass
    hx1 hx2 hb1 hb2
  have hc1 : cellCostValue g cfg st1.x st1.y st1.footprintClass =
      .fin DBL_MAX := by
    simp only [cellCostValue]
    rw [if_pos (Or.inr hv)]
  have hc2 : cellCostValue g cfg st2.x st2.y st2.footprintClass =
      .fin DBL_MAX := by
    simp only [cellCostValue]
    rw [if_pos (Or.inr hv)]
  rw [hc1, hc2] at hbase
  have hadd : DD.add (.fin DBL_MAX) (.fin DBL_MAX) = .inf := by
    simp only [DD.add]
    rw [if_pos]
    unfold DBL_MAX DBL_OVF
    norm_num
  rw [hadd] at hbase
  have hnd : 0 < nativeDistance (.sherpa st1) (.sherpa st2) / 2 := by
    have h1 := planarDist_pos st1.x st1.y st2.x st2.y hpos
    have h2 : (0 : ℝ) ≤ |st1.yaw - st2.yaw| / 2 := by positivity
    simp only [nativeDistance]
    linarith
  have hmul : DD.mulIEEE .inf
      (nativeDistance (.sherpa st1) (.sherpa st2) / 2) = .inf := by
    simp [DD.mulIEEE, hnd]
  rw [hmul] at hbase
  rw [motionCost_sherpa_cases g cfg st1 st2 _ henv hbase, if_neg hnot, hfp]
  split <;> rfl

/-- Counterexample to C10 as stated: a concrete speed-zero configuration
with differing footprint classes and distinct in-bounds positions where the
motion cost IS the `+inf` infeasible sentinel — not a non-sentinel cost —
because the `DBL_MAX` endpoint sentinels overflow in the base segment cost. -/
theorem c10_speed_zero_counterexample :
    (mkConfig .ENV_SHERPA 0 1 10 5).mMobility.mSpeed = 0 ∧
    ((0 : ℤ) ≠ (1 : ℤ)) ∧
    (((0 : ℝ), (0 : ℝ)) ≠ ((1 : ℝ), (0 : ℝ))) ∧
    motionCost ⟨some (flatGrid 10 10 1 1), mkConfig .ENV_SHERPA 0 1 10 5⟩
      (.sherpa ⟨0, 0, 0, 0⟩) (.sherpa ⟨1, 0, 0, 1⟩) = .ok .inf := by
  have hb1 : InBounds (flatGrid 10 10 1 1) 0 0 := by
    refine ⟨le_refl _, ?_, le_refl _, ?_⟩ <;> norm_num [flatGrid]
  have hb2 : InBounds (flatGrid 10 10 1 1) 1 0 := by
    refine ⟨by norm_num, ?_, le_refl _, ?_⟩ <;> norm_num [flatGrid]
  refine ⟨rfl, by norm_num, by
    intro h
    have := congrArg Prod.fst h
    norm_num at this, ?_⟩
  exact (motionCost_speed_zero_overflow_aux (flatGrid 10 10 1 1)
    (mkConfig .ENV_SHERPA 0 1 10 5) ⟨0, 0, 0, 0⟩ ⟨1, 0, 0, 1⟩ rfl hb1 hb2
    (by norm_num [mkConfig]) rfl
    (by
      intro h
      have := congrArg Prod.fst h
      norm_num at this)
    (by norm_num [flatGrid])).2.2

/-- C10 (amended): in the footprint-aware variant with speed `0`,
`mov_time_sec` is the IEEE `+inf` of the unguarded division by zero, so for
two in-bounds states with differing footprint classes and distinct positions
the `fp_time_sec > mov_time_sec` comparison does not trigger and the
override branch is never taken — but the transition still evaluates to the
`+inf` sentinel, because the two `DBL_MAX` endpoint sentinel costs overflow
to `+inf` in the base segment cost. -/
theorem c10_speed_zero_not_forced (g : TraversabilityGrid) (cfg : Config)
    (st1 st2 : SherpaState)
    (henv : cfg.mEnvType = .ENV_SHERPA)
    (hb1 : InBounds g st1.x st1.y) (hb2 : InBounds g st2.x st2.y)
    (hn : 0 < cfg.mNumFootprintClasses)
    (hv : cfg.mMobility.mSpeed = 0)
    (hfc : st1.footprintClass ≠ st2.footprintClass)
    (hpos : (st1.x, st1.y) ≠ (st2.x, st2.y))
    (hscale : 0 < g.scaleX) :
    movTimeSec g cfg st1 st2 = .inf ∧
    ¬ DD.gt (fpTimeSec cfg st1 st2) (movTimeSec g cfg st1 st2) ∧
    motionCost ⟨some g, cfg⟩ (.sherpa st1) (.sherpa st2) = .ok .inf :=
  motionCost_speed_zero_overflow_aux g cfg st1 st2 henv hb1 hb2 hn hv
    hpos hscale

/-- Witness for the amended C10: speed 0, differing classes, distinct
positions — the movement time is `+inf`, and the motion cost is the `+inf`
sentinel reached through overflow, not through the override. -/
theorem c10_speed_zero_not_forced_witness :
    movTimeSec (flatGrid 10 10 1 1) (mkConfig .ENV_SHERPA 0 1 10 5)
      ⟨0, 0, 0, 0⟩ ⟨2, 0, 0, 1⟩ = .inf ∧
    motionCost ⟨some (flatGrid 10 10 1 1), mkConfig .ENV_SHERPA 0 1 10 5⟩
      (.sherpa ⟨0, 0, 0, 0⟩) (.sherpa ⟨2, 0, 0, 1⟩) = .ok .inf := by
  have hb1 : InBounds (flatGrid 10 10 1 1) 0 0 := by
    refine ⟨le_refl _, ?_, le_refl _, ?_⟩ <;> norm_num [flatGrid]
  have hb2 : InBounds (flatGrid 10 10 1 1) 2 0 := by
    refine ⟨by norm_num, ?_, le_refl _, ?_⟩ <;> norm_num [flatGrid]
  have h := c10_speed_zero_not_forced (flatGrid 10 10 1 1)
    (mkConfig .ENV_SHERPA 0 1 10 5) ⟨0, 0, 0, 0⟩ ⟨2, 0, 0, 1⟩ rfl hb1 hb2
    (by norm_num [mkConfig]) rfl (by norm_num)
    (by
      intro h
      have := congrArg Prod.fst h
      norm_num at this)
    (by norm_num [flatGrid])
  exact ⟨h.1, h.2.2⟩

/-- C9: the infeasible sentinel of `stateCost` for zero drivability or zero
speed is exactly `DBL_MAX`, the largest finite double — untouched by the
footprint-class division even in the footprint-aware variant — and it is
strictly below, and distinct from, the `+inf` sentinel that `motionCost`
produces when it forces a footprint-infeasible transition (shown on a
concrete forced transition). -/
theorem c9_sentinel_values (g : TraversabilityGrid) (cfg : Config)
    (x y yaw : ℝ) (fc : ℤ)
    (henv : cfg.mEnvType = .ENV_SHERPA)
    (hb : InBounds g x y)
    (hzero : g.drivability (g.travData ⌊y⌋.toNat ⌊x⌋.toNat) = 0 ∨
             cfg.mMobility.mSpeed = 0) :
    stateCost ⟨some g, cfg⟩ (.sherpa ⟨x, y, yaw, fc⟩) = .ok (.fin DBL_MAX) ∧
    DBL_MAX = (2 ^ 53 - 1) * 2 ^ 971 ∧
    DD.gt .inf (.fin DBL_MAX) ∧
    DD.fin DBL_MAX ≠ DD.inf ∧
    motionCost ⟨some (flatGrid 3 3 1 1), mkConfig .ENV_SHERPA 1 1 10 0⟩
      (.sherpa ⟨0, 0, 0, 0⟩) (.sherpa ⟨0, 0, 0, 1⟩) = .ok .inf := by
  have hx : extractState cfg.mEnvType (.sherpa ⟨x, y, yaw, fc⟩) =
      .ok (x, y, fc) := by
    rw [henv]
    rfl
  refine ⟨stateCost_sentinel_aux g cfg _ x y fc hx hb hzero, rfl,
    by simp [DD.gt], by simp, ?_⟩
  have hb9 : InBounds (flatGrid 3 3 1 1) 0 0 := by
    refine ⟨le_refl _, ?_, le_refl _, ?_⟩ <;> norm_num [flatGrid]
  have hbase := baseSegmentCost_inbounds (flatGrid 3 3 1 1)
    (mkConfig .ENV_SHERPA 1 1 10 0) (.sherpa ⟨0, 0, 0, 0⟩)
    (.sherpa ⟨0, 0, 0, 1⟩) 0 0 0 0 0 1 rfl rfl hb9 hb9
  rw [motionCost_sherpa_cases (flatGrid 3 3 1 1)
    (mkConfig .ENV_SHERPA 1 1 10 0) ⟨0, 0, 0, 0⟩ ⟨0, 0, 0, 1⟩ _ rfl hbase,
    if_pos]
  rw [fpTimeSec_fin _ _ _ (by norm_num [mkConfig]),
    movTimeSec_fin _ _ _ _ (by norm_num [mkConfig]), DD.gt_fin_iff,
    planarDist_same_y]
  norm_num [flatGrid, mkConfig]

/-- Witness for C9: a concrete zero-drivability cell in the footprint-aware
variant — the state cost is the finite `DBL_MAX` sentinel, not `+inf`. -/
theorem c9_sentinel_values_witness :
    stateCost ⟨some (flatGrid 4 4 1 0), mkConfig .ENV_SHERPA 1 3 0 0⟩
      (.sherpa ⟨1, 1, 0, 2⟩) = .ok (.fin DBL_MAX) ∧
    DD.gt .inf (.fin DBL_MAX) := by
  have hb : InBounds (flatGrid 4 4 1 0) 1 1 := by
    refine ⟨by norm_num, ?_, by norm_num, ?_⟩ <;> norm_num [flatGrid]
  have h := c9_sentinel_values (flatGrid 4 4 1 0) (mkConfig .ENV_SHERPA 1 3 0 0)
    1 1 0 2 rfl hb (Or.inl rfl)
  exact ⟨h.1, h.2.2.1⟩

end MotionPlanningLibraries
